import Mathlib

/-!
Verification of the slot-booking and appointment-lifecycle core of a
school appointment system (FastAPI + SQLAlchemy backend).

The development is a shallow embedding of the relevant source files:

* app/models/slot.py          — the AvailableSlot table
* app/models/appointment.py   — the Appointment table
* app/crud/slot.py            — CRUDSlot operations
* app/crud/appointment.py     — CRUDAppointment operations
* app/api/routes/appointments.py — book_appointment, update_appointment_status
* app/api/routes/slots.py     — create_bulk_slots
* app/tasks/scheduled_jobs.py — send_appointment_reminders, reset_weekly_slots

Conventions of the embedding:

* Times of day (the SQL `Time` columns start_time / end_time of a slot) are
  minutes after midnight, as `Nat`; only ordering and equality matter.
* Datetimes (the SQL `DateTime` columns, e.g. week_start_date and the job
  cutoffs computed from `datetime.utcnow()`) are minutes since an arbitrary
  epoch, as `Int`.
* The database is a pair of tables, each a list of rows; `commit` is the
  functional update of that state.  Each CRUD function both reads and
  returns the database state, mirroring the session it receives in Python.
* Freshly generated `uuid4` identifiers are passed in as explicit arguments.
* HTTP exceptions of app/exceptions/http.py are an `ApiError` value; a
  route returns `Except ApiError` threaded with the (already committed)
  database state, because SQLAlchemy commits performed before an exception
  are not rolled back by the route handlers.
-/

/-- Appointment status constants (app/core/constants.py, AppointmentStatus). -/
inductive AppointmentStatus where
  | pending
  | confirmed
  | cancelled
  | completed
  | no_show
deriving DecidableEq, Repr

/-- Meeting mode constants (app/core/constants.py, MeetingMode). -/
inductive MeetingMode where
  | online
  | face_to_face
deriving DecidableEq, Repr

/-- Errors surfaced by the routes: the custom HTTP exceptions of
app/exceptions/http.py that the booking and status code paths raise, plus
the driver-level IntegrityError that an insert violating the UNIQUE
constraint on Appointment.slot_id raises out of `db.commit()` (the routes
do not catch it, so the client sees a generic 500, not a 409 conflict). -/
inductive ApiError where
  | notFound (detail : String)
  | conflict (detail : String)
  | badRequest (detail : String)
  | integrityError
deriving DecidableEq, Repr

/-- Row of the available_slots table (app/models/slot.py, AvailableSlot).
Columns not used by any claim (created_at, updated_at) are omitted. -/
structure AvailableSlot where
  id : String
  teacher_id : String
  day_of_week : Nat
  start_time : Nat
  end_time : Nat
  is_booked : Bool
  week_start_date : Int
deriving DecidableEq, Repr

/-- Row of the appointments table (app/models/appointment.py, Appointment).
Columns not used by any claim (created_at, updated_at) are omitted.  Note
that the model declares no reminder_sent column; see
appointmentModelColumns below. -/
structure Appointment where
  id : String
  parent_id : String
  teacher_id : String
  slot_id : String
  meeting_mode : MeetingMode
  status : AppointmentStatus
  notes : Option String
deriving DecidableEq, Repr

/-- The mutable shared state: the two tables the booking core reads and
writes. -/
structure DB where
  slots : List AvailableSlot
  appointments : List Appointment
deriving DecidableEq, Repr

/-- CRUDBase.get specialised to slots: first row whose primary key matches
(app/crud/base.py get, via filter(id == id).first()). -/
def CRUDSlot.get (db : DB) (slot_id : String) : Option AvailableSlot :=
  db.slots.find? (fun s => s.id == slot_id)

/-- CRUDBase.get specialised to appointments. -/
def CRUDAppointment.get (db : DB) (appointment_id : String) : Option Appointment :=
  db.appointments.find? (fun a => a.id == appointment_id)

/-- CRUDAppointment.get_by_slot (app/crud/appointment.py lines 123-134):
first appointment whose slot_id column matches, regardless of status. -/
def CRUDAppointment.get_by_slot (db : DB) (slot_id : String) : Option Appointment :=
  db.appointments.find? (fun a => a.slot_id == slot_id)

/-- Python truthiness of the optional exclude_slot_id argument: the guard
`if exclude_slot_id:` in check_time_conflict treats None and the empty
string alike as absent. -/
def pyTruthy : Option String → Bool
  | none => false
  | some s => s != ""

/-- CRUDSlot.check_time_conflict (app/crud/slot.py lines 133-165): true iff
some slot of the same teacher, day of week and week has
start_time < end_time (candidate) and end_time > start_time (candidate),
skipping the excluded slot id when that argument is truthy. -/
def CRUDSlot.check_time_conflict (db : DB) (teacher_id : String)
    (day_of_week : Nat) (start_time end_time : Nat) (week_start : Int)
    (exclude_slot_id : Option String) : Bool :=
  db.slots.any (fun s =>
    s.teacher_id == teacher_id &&
    s.day_of_week == day_of_week &&
    s.week_start_date == week_start &&
    decide (s.start_time < end_time) &&
    decide (s.end_time > start_time) &&
    (!pyTruthy exclude_slot_id || s.id != (exclude_slot_id.getD "")))

/-- CRUDSlot.mark_as_booked (app/crud/slot.py lines 167-175): flip
is_booked to true only when the slot exists and is not yet booked;
otherwise do nothing and return None. -/
def CRUDSlot.mark_as_booked (db : DB) (slot_id : String) :
    DB × Option AvailableSlot :=
  match CRUDSlot.get db slot_id with
  | none => (db, none)
  | some s =>
    if s.is_booked then (db, none)
    else
      ({ db with slots := db.slots.map (fun t =>
          if t.id == slot_id then { t with is_booked := true } else t) },
       some { s with is_booked := true })

/-- CRUDSlot.mark_as_available (app/crud/slot.py lines 177-185): flip
is_booked to false only when the slot exists and is currently booked;
otherwise do nothing and return None. -/
def CRUDSlot.mark_as_available (db : DB) (slot_id : String) :
    DB × Option AvailableSlot :=
  match CRUDSlot.get db slot_id with
  | none => (db, none)
  | some s =>
    if s.is_booked then
      ({ db with slots := db.slots.map (fun t =>
          if t.id == slot_id then { t with is_booked := false } else t) },
       some { s with is_booked := false })
    else (db, none)

/-- CRUDSlot.create (app/crud/slot.py lines 19-28): insert a new row with a
fresh uuid; is_booked takes the column default False. -/
def CRUDSlot.create (db : DB) (teacher_id : String) (day_of_week : Nat)
    (start_time end_time : Nat) (week_start_date : Int) (newId : String) :
    DB × AvailableSlot :=
  let s : AvailableSlot :=
    { id := newId, teacher_id := teacher_id, day_of_week := day_of_week,
      start_time := start_time, end_time := end_time,
      is_booked := false, week_start_date := week_start_date }
  ({ db with slots := db.slots ++ [s] }, s)

/-- CRUDAppointment.create (app/crud/appointment.py lines 22-31): insert a
new row with a fresh uuid; status takes the column default pending.  The
commit enforces the UNIQUE constraint on slot_id and the primary-key
constraint on id declared in app/models/appointment.py; a violation raises
IntegrityError and leaves the table unchanged. -/
def CRUDAppointment.create (db : DB) (parent_id teacher_id slot_id : String)
    (meeting_mode : MeetingMode) (notes : Option String) (newId : String) :
    DB × Except ApiError Appointment :=
  if db.appointments.any (fun a => a.slot_id == slot_id || a.id == newId) then
    (db, .error .integrityError)
  else
    let a : Appointment :=
      { id := newId, parent_id := parent_id, teacher_id := teacher_id,
        slot_id := slot_id, meeting_mode := meeting_mode,
        status := .pending, notes := notes }
    ({ db with appointments := db.appointments ++ [a] }, .ok a)

/-- CRUDAppointment.update_status (app/crud/appointment.py lines 171-184):
set the status column unconditionally when the appointment exists; no
legality check of the transition. -/
def CRUDAppointment.update_status (db : DB) (appointment_id : String)
    (new_status : AppointmentStatus) : DB × Option Appointment :=
  match CRUDAppointment.get db appointment_id with
  | none => (db, none)
  | some a =>
    ({ db with appointments := db.appointments.map (fun x =>
        if x.id == appointment_id then { x with status := new_status } else x) },
     some { a with status := new_status })

/-- CRUDAppointment.cancel_appointment (app/crud/appointment.py lines
186-201): when the appointment exists and is not already cancelled, set its
status to cancelled and mark its slot as available; otherwise None. -/
def CRUDAppointment.cancel_appointment (db : DB) (appointment_id : String) :
    DB × Option Appointment :=
  match CRUDAppointment.get db appointment_id with
  | none => (db, none)
  | some a =>
    if a.status != .cancelled then
      let db1 : DB :=
        { db with appointments := db.appointments.map (fun x =>
            if x.id == appointment_id then { x with status := .cancelled } else x) }
      let (db2, _) := CRUDSlot.mark_as_available db1 a.slot_id
      (db2, some { a with status := .cancelled })
    else (db, none)

/-- CRUDAppointment.confirm_appointment (app/crud/appointment.py lines
203-211): pending appointments only. -/
def CRUDAppointment.confirm_appointment (db : DB) (appointment_id : String) :
    DB × Option Appointment :=
  match CRUDAppointment.get db appointment_id with
  | none => (db, none)
  | some a =>
    if a.status == .pending then
      ({ db with appointments := db.appointments.map (fun x =>
          if x.id == appointment_id then { x with status := .confirmed } else x) },
       some { a with status := .confirmed })
    else (db, none)

/-- CRUDAppointment.complete_appointment (app/crud/appointment.py lines
213-221): pending or confirmed appointments only. -/
def CRUDAppointment.complete_appointment (db : DB) (appointment_id : String) :
    DB × Option Appointment :=
  match CRUDAppointment.get db appointment_id with
  | none => (db, none)
  | some a =>
    if a.status == .pending || a.status == .confirmed then
      ({ db with appointments := db.appointments.map (fun x =>
          if x.id == appointment_id then { x with status := .completed } else x) },
       some { a with status := .completed })
    else (db, none)

/-- CRUDAppointment.mark_no_show (app/crud/appointment.py lines 223-231):
pending or confirmed appointments only. -/
def CRUDAppointment.mark_no_show (db : DB) (appointment_id : String) :
    DB × Option Appointment :=
  match CRUDAppointment.get db appointment_id with
  | none => (db, none)
  | some a =>
    if a.status == .pending || a.status == .confirmed then
      ({ db with appointments := db.appointments.map (fun x =>
          if x.id == appointment_id then { x with status := .no_show } else x) },
       some { a with status := .no_show })
    else (db, none)

/-- The booking route book_appointment (app/api/routes/appointments.py
lines 89-140), from the slot lookup at line 103 onward (the parent-profile
lookup and the fire-and-forget notification dispatch around it do not touch
the slot or appointment tables).  Sequential semantics: the four database
accesses run back to back with no interleaving. -/
def book_appointment (db : DB) (parent_id slot_id : String)
    (meeting_mode : MeetingMode) (notes : Option String) (newApptId : String) :
    DB × Except ApiError Appointment :=
  match CRUDSlot.get db slot_id with
  | none => (db, .error (.notFound "Slot not found"))
  | some db_slot =>
    if db_slot.is_booked then
      (db, .error (.conflict "Slot is already booked"))
    else
      match CRUDAppointment.get_by_slot db slot_id with
      | some _ => (db, .error (.conflict "Slot already has an appointment"))
      | none =>
        match CRUDAppointment.create db parent_id db_slot.teacher_id slot_id
            meeting_mode notes newApptId with
        | (db1, .error e) => (db1, .error e)
        | (db1, .ok db_appointment) =>
          let (db2, _) := CRUDSlot.mark_as_booked db1 slot_id
          (db2, .ok db_appointment)

/-- The status route update_appointment_status (app/api/routes/
appointments.py lines 202-238), from the existence check at line 212
onward (the role checks before it do not touch the tables).  The dispatch
at lines 222-233 picks the CRUD method by target status, with a direct
update_status call as the fallthrough branch (reached exactly for target
pending); a None result becomes the BadRequestException at line 236. -/
def update_appointment_status (db : DB) (appointment_id : String)
    (status : AppointmentStatus) : DB × Except ApiError Appointment :=
  match CRUDAppointment.get db appointment_id with
  | none => (db, .error (.notFound "Appointment not found"))
  | some _ =>
    let step : DB × Option Appointment :=
      match status with
      | .confirmed => CRUDAppointment.confirm_appointment db appointment_id
      | .completed => CRUDAppointment.complete_appointment db appointment_id
      | .no_show => CRUDAppointment.mark_no_show db appointment_id
      | .cancelled => CRUDAppointment.cancel_appointment db appointment_id
      | _ => CRUDAppointment.update_status db appointment_id status
    match step with
    | (db1, none) => (db1, .error (.badRequest "Failed to update appointment status"))
    | (db1, some a) => (db1, .ok a)

/-- One candidate entry of BulkSlotCreate.time_slots (app/schemas/slot.py),
already parsed: day_of_week plus start/end times in minutes. -/
structure TimeSlotSpec where
  day_of_week : Nat
  start_time : Nat
  end_time : Nat
deriving DecidableEq, Repr

/-- Detail string of the ConflictException raised by create_bulk_slots for
a conflicting candidate (app/api/routes/slots.py lines 135-138). -/
def bulkConflictDetail (c : TimeSlotSpec) : String :=
  "Time slot on day " ++ toString c.day_of_week ++ " from " ++
    toString c.start_time ++ " to " ++ toString c.end_time ++
    " conflicts with existing slot"

/-- Loop body of create_bulk_slots (app/api/routes/slots.py lines 116-151):
for each candidate, first check_time_conflict against the current table
(which already contains the candidates created earlier in this request,
each committed individually); a conflict raises ConflictException,
aborting the loop but leaving the earlier inserts committed.  Otherwise
construct SlotCreate — whose validator rejects end_time not after
start_time — and insert the slot.  Candidates are pre-paired with the
fresh uuid CRUDSlot.create will assign. -/
def bulkLoop (teacher_id : String) (week_start : Int) :
    DB → List AvailableSlot → List (TimeSlotSpec × String) →
    DB × Except ApiError (List AvailableSlot)
  | db, created, [] => (db, .ok created)
  | db, created, (c, newId) :: rest =>
    if CRUDSlot.check_time_conflict db teacher_id c.day_of_week
        c.start_time c.end_time week_start none then
      (db, .error (.conflict (bulkConflictDetail c)))
    else if c.end_time ≤ c.start_time then
      (db, .error (.badRequest "End time must be after start time"))
    else
      let (db1, s) := CRUDSlot.create db teacher_id c.day_of_week
        c.start_time c.end_time week_start newId
      bulkLoop teacher_id week_start db1 (created ++ [s]) rest

/-- The bulk route create_bulk_slots (app/api/routes/slots.py lines
97-152), from the candidate loop at line 116 onward (the teacher-existence
and role checks before it do not touch the slot table). -/
def create_bulk_slots (db : DB) (teacher_id : String) (week_start : Int)
    (candidates : List (TimeSlotSpec × String)) :
    DB × Except ApiError (List AvailableSlot) :=
  bulkLoop teacher_id week_start db [] candidates

/-- Program counter of one in-flight booking request executing
book_appointment.  The four values name the four database round trips of
app/api/routes/appointments.py lines 103-127: the slot read (with the
is_booked check on the value just read), the appointment-by-slot read, the
appointment insert commit, and the mark_as_booked read-modify-write. -/
structure BookProc where
  parent_id : String
  slot_id : String
  meeting_mode : MeetingMode
  notes : Option String
  newApptId : String
  seenTeacher : String
  pc : Nat
  result : Option (Except ApiError Appointment)
deriving Repr

instance : DecidableEq (Except ApiError Appointment) := fun a b =>
  match a, b with
  | .ok x, .ok y => decidable_of_iff (x = y) (by simp)
  | .ok _, .error _ => isFalse (by simp)
  | .error _, .ok _ => isFalse (by simp)
  | .error x, .error y => decidable_of_iff (x = y) (by simp)

deriving instance DecidableEq for BookProc

/-- Initial state of a booking request. -/
def BookProc.start (parent_id slot_id : String) (meeting_mode : MeetingMode)
    (notes : Option String) (newApptId : String) : BookProc :=
  { parent_id := parent_id, slot_id := slot_id, meeting_mode := meeting_mode,
    notes := notes, newApptId := newApptId, seenTeacher := "", pc := 0,
    result := none }

/-- One atomic database access of a booking request.  Atomicity is at the
granularity the storage layer actually guarantees: each individual query or
commit is atomic, but nothing serialises the sequence — book_appointment
takes no lock and performs no compare-and-swap, so between two accesses of
one request the other requests may run.  A finished process is left
unchanged. -/
def bookStep (db : DB) (p : BookProc) : DB × BookProc :=
  match p.result with
  | some _ => (db, p)
  | none =>
    match p.pc with
    | 0 =>
      match CRUDSlot.get db p.slot_id with
      | none => (db, { p with result := some (.error (.notFound "Slot not found")) })
      | some s =>
        if s.is_booked then
          (db, { p with result := some (.error (.conflict "Slot is already booked")) })
        else (db, { p with seenTeacher := s.teacher_id, pc := 1 })
    | 1 =>
      match CRUDAppointment.get_by_slot db p.slot_id with
      | some _ =>
        (db, { p with result := some (.error (.conflict "Slot already has an appointment")) })
      | none => (db, { p with pc := 2 })
    | 2 =>
      match CRUDAppointment.create db p.parent_id p.seenTeacher p.slot_id
          p.meeting_mode p.notes p.newApptId with
      | (db1, .error e) => (db1, { p with result := some (.error e) })
      | (db1, .ok _) => (db1, { p with pc := 3 })
    | _ =>
      let (db1, _) := CRUDSlot.mark_as_booked db p.slot_id
      (db1, { p with result := some (.ok (Appointment.mk p.newApptId p.parent_id
        p.seenTeacher p.slot_id p.meeting_mode .pending p.notes)) })

/-- Run two concurrent booking requests under an explicit interleaving:
true steps the first request, false the second. -/
def runSchedule : List Bool → DB → BookProc → BookProc → DB × BookProc × BookProc
  | [], db, a, b => (db, a, b)
  | true :: rest, db, a, b =>
    let (db1, a1) := bookStep db a
    runSchedule rest db1 a1 b
  | false :: rest, db, a, b =>
    let (db1, b1) := bookStep db b
    runSchedule rest db1 a b1

/-- Structured result a scheduled job returns: the status key of the dict
plus the two counters of the reminder job. -/
structure JobResult where
  status : String
  sent : Nat
  failed : Nat
deriving DecidableEq, Repr

/-- Columns declared by the Appointment model (app/models/appointment.py
lines 16-24).  This is the complete attribute surface the SQLAlchemy
declarative class exposes to query filters; there is no reminder_sent
column. -/
def appointmentModelColumns : List String :=
  ["id", "parent_id", "teacher_id", "slot_id", "meeting_mode", "status",
   "notes", "created_at", "updated_at"]

/-- The scheduled job send_appointment_reminders (app/tasks/
scheduled_jobs.py lines 24-80).  The query filter at lines 44-47 reads the
class attribute Appointment.reminder_sent; the model declares no such
column (appointmentModelColumns), so building the filter raises
AttributeError before any row is read.  The enclosing try/except at line
76 converts the exception to the status-error dict, the session is closed,
and the run ends: no appointment is selected, no reminder dispatched, no
flag written, database unchanged.  The second component lists the ids of
the appointments for which a reminder was dispatched during the run. -/
def send_appointment_reminders (db : DB) : DB × JobResult × List String :=
  if appointmentModelColumns.contains "reminder_sent" then
    (db, { status := "completed", sent := 0, failed := 0 }, [])
  else
    (db, { status := "error", sent := 0, failed := 0 }, [])

/-- The scheduled job reset_weekly_slots (app/tasks/scheduled_jobs.py lines
83-121).  Its delete filter is is_booked == False AND start_time < now - 7
days, where start_time is the Time (time-of-day) column of the slot and
the cutoff is a datetime — an ill-typed comparison whose outcome depends
on the database engine (string comparison on SQLite, a type error on
PostgreSQL).  The embedding therefore takes the comparison the engine
gives this time/datetime pair as an explicit parameter cmp; every engine
instantiates some cmp.  Whatever cmp is, the filter reads only is_booked
and start_time: week_start_date never enters it.  Returns the new state
and the deleted-row count of the result dict. -/
def reset_weekly_slots (cmp : Nat → Int → Bool) (db : DB) (now : Int) :
    DB × Nat :=
  let one_week_ago : Int := now - 7 * 24 * 60
  let deleteRow := fun (s : AvailableSlot) => !s.is_booked && cmp s.start_time one_week_ago
  ({ db with slots := db.slots.filter (fun s => !deleteRow s) },
   (db.slots.filter deleteRow).length)

/-- The slot row a bulk candidate turns into when inserted (the SlotCreate
payload of app/api/routes/slots.py lines 141-147 passed to
CRUDSlot.create). -/
def bulkSlot (teacher_id : String) (week_start : Int)
    (ci : TimeSlotSpec × String) : AvailableSlot :=
  AvailableSlot.mk ci.2 teacher_id ci.1.day_of_week ci.1.start_time
    ci.1.end_time false week_start

/-- The rows a conflict-free bulk request inserts, in order. -/
def bulkSlots (teacher_id : String) (week_start : Int)
    (cands : List (TimeSlotSpec × String)) : List AvailableSlot :=
  cands.map (bulkSlot teacher_id week_start)

/-- The candidate list passes the per-candidate conflict check and time
validator at every step of the bulk loop, each candidate being checked
against the table as extended by the candidates inserted before it. -/
def runsWithoutConflict (teacher_id : String) (week_start : Int) :
    DB → List (TimeSlotSpec × String) → Prop
  | _, [] => True
  | db, ci :: rest =>
    CRUDSlot.check_time_conflict db teacher_id ci.1.day_of_week
      ci.1.start_time ci.1.end_time week_start none = false ∧
    ci.1.start_time < ci.1.end_time ∧
    runsWithoutConflict teacher_id week_start
      { db with slots := db.slots ++ [bulkSlot teacher_id week_start ci] } rest

/-- C5: For every provider, day-of-week, week-start-date, candidate
half-open range [start, end) and optional excluded slot id, the conflict
check reports a conflict iff some existing slot for that
provider/day/week, other than the excluded one, has a range [s1, e1) with
s1 < end and e1 > start; ranges that merely touch never conflict.  The
hypothesis rules out the degenerate empty-string slot id, which the Python
truthiness guard `if exclude_slot_id:` would treat as no exclusion. -/
theorem check_time_conflict_iff (db : DB) (teacher_id : String)
    (day_of_week : Nat) (start_time end_time : Nat) (week_start : Int)
    (exclude_slot_id : Option String)
    (hx : exclude_slot_id ≠ some "") :
    CRUDSlot.check_time_conflict db teacher_id day_of_week start_time
      end_time week_start exclude_slot_id = true ↔
    ∃ s ∈ db.slots, s.teacher_id = teacher_id ∧ s.day_of_week = day_of_week ∧
      s.week_start_date = week_start ∧
      (∀ eid, exclude_slot_id = some eid → s.id ≠ eid) ∧
      s.start_time < end_time ∧ s.end_time > start_time := by
  cases exclude_slot_id with
  | none =>
    simp [CRUDSlot.check_time_conflict, List.any_eq_true, pyTruthy,
      and_assoc]
  | some e =>
    have he : e ≠ "" := fun h => hx (by rw [h])
    simp [CRUDSlot.check_time_conflict, List.any_eq_true, pyTruthy, he,
      and_assoc]
    constructor
    · rintro ⟨s, hs, h1, h2, h3, h4, h5, h6⟩
      exact ⟨s, hs, h1, h2, h3, h6, h4, h5⟩
    · rintro ⟨s, hs, h1, h2, h3, h6, h4, h5⟩
      exact ⟨s, hs, h1, h2, h3, h4, h5, h6⟩

/-- Witness for C5: a concrete database on which the equivalence is
applied; the slot [540, 600) of teacher t1 conflicts with the candidate
[570, 630) on the same day and week. -/
theorem check_time_conflict_iff_witness :
    CRUDSlot.check_time_conflict
      (DB.mk [AvailableSlot.mk "s1" "t1" 0 540 600 false 0] [])
      "t1" 0 570 630 0 none = true :=
  (check_time_conflict_iff
      (DB.mk [AvailableSlot.mk "s1" "t1" 0 540 600 false 0] [])
      "t1" 0 570 630 0 none (by simp)).mpr
    ⟨AvailableSlot.mk "s1" "t1" 0 540 600 false 0, by simp, rfl, rfl, rfl,
      by simp, by decide, by decide⟩

/-- C2: book raises NotFoundError when the slot does not exist; when it
exists it raises ConflictError if the booked flag is true, or if any
appointment already references the slot; otherwise it creates a new
pending appointment bound to the slot and sets the booked flag to true.
The success case additionally assumes the freshly generated uuid does not
collide with an existing appointment id (uuid4 freshness), which the
primary-key constraint would otherwise reject. -/
theorem book_appointment_spec (db : DB) (parent_id slot_id : String)
    (meeting_mode : MeetingMode) (notes : Option String) (newApptId : String) :
    (CRUDSlot.get db slot_id = none →
      book_appointment db parent_id slot_id meeting_mode notes newApptId =
        (db, .error (.notFound "Slot not found"))) ∧
    (∀ s, CRUDSlot.get db slot_id = some s → s.is_booked = true →
      book_appointment db parent_id slot_id meeting_mode notes newApptId =
        (db, .error (.conflict "Slot is already booked"))) ∧
    (∀ s a, CRUDSlot.get db slot_id = some s → s.is_booked = false →
      CRUDAppointment.get_by_slot db slot_id = some a →
      book_appointment db parent_id slot_id meeting_mode notes newApptId =
        (db, .error (.conflict "Slot already has an appointment"))) ∧
    (∀ s, CRUDSlot.get db slot_id = some s → s.is_booked = false →
      CRUDAppointment.get_by_slot db slot_id = none →
      (∀ a ∈ db.appointments, a.id ≠ newApptId) →
      book_appointment db parent_id slot_id meeting_mode notes newApptId =
        ({ slots := db.slots.map (fun t =>
              if t.id == slot_id then { t with is_booked := true } else t),
           appointments := db.appointments ++
             [Appointment.mk newApptId parent_id s.teacher_id slot_id
               meeting_mode .pending notes] },
         .ok (Appointment.mk newApptId parent_id s.teacher_id slot_id
               meeting_mode .pending notes))) := by
  refine ⟨?_, ?_, ?_, ?_⟩
  · intro h
    simp [book_appointment, h]
  · intro s hs hb
    simp [book_appointment, hs, hb]
  · intro s a hs hb ha
    simp [book_appointment, hs, hb, ha]
  · intro s hs hb ha hfresh
    have hany : db.appointments.any
        (fun a => a.slot_id == slot_id || a.id == newApptId) = false := by
      rw [Bool.eq_false_iff]
      intro hh
      rw [List.any_eq_true] at hh
      obtain ⟨a, hmem, hp⟩ := hh
      rw [Bool.or_eq_true, beq_iff_eq, beq_iff_eq] at hp
      cases hp with
      | inl h1 =>
        have := List.find?_eq_none.mp ha a hmem
        rw [beq_iff_eq] at this
        exact this h1
      | inr h2 => exact hfresh a hmem h2
    simp only [book_appointment, hs, hb, ha, CRUDAppointment.create, hany,
      Bool.false_eq_true, if_false, CRUDSlot.mark_as_booked]
    have hget1 : CRUDSlot.get
        { db with appointments := db.appointments ++
            [Appointment.mk newApptId parent_id s.teacher_id slot_id
              meeting_mode .pending notes] } slot_id = some s := hs
    rw [hget1]
    simp [hb]

/-- Witness for C2: the success clause applied to a concrete one-slot
database; booking creates the pending appointment and books the slot. -/
theorem book_appointment_spec_witness :
    book_appointment (DB.mk [AvailableSlot.mk "s1" "t1" 0 540 600 false 0] [])
        "p1" "s1" MeetingMode.online none "a1" =
      (DB.mk [AvailableSlot.mk "s1" "t1" 0 540 600 true 0]
        [Appointment.mk "a1" "p1" "t1" "s1" MeetingMode.online .pending none],
       .ok (Appointment.mk "a1" "p1" "t1" "s1" MeetingMode.online .pending none)) := by
  have h := (book_appointment_spec
      (DB.mk [AvailableSlot.mk "s1" "t1" 0 540 600 false 0] [])
      "p1" "s1" MeetingMode.online none "a1").2.2.2
    (AvailableSlot.mk "s1" "t1" 0 540 600 false 0)
    (by decide) (by decide) (by decide) (by simp)
  rw [h]
  decide


/-- Updating the is_booked flag of the slots matching one id commutes with
looking a slot up by id: the lookup result is the old result with the same
update applied. -/
theorem find?_booked_update (l : List AvailableSlot) (sid tid : String) (b : Bool) :
    (l.map (fun t => if t.id == sid then { t with is_booked := b } else t)).find?
        (fun s => s.id == tid) =
      (l.find? (fun s => s.id == tid)).map
        (fun t => if t.id == sid then { t with is_booked := b } else t) := by
  induction l with
  | nil => rfl
  | cons h t ih =>
    have hid : (if h.id == sid then { h with is_booked := b } else h).id = h.id := by
      by_cases hs : h.id = sid <;> simp [hs]
    rw [List.map_cons, List.find?_cons, List.find?_cons]
    cases ht : (h.id == tid) with
    | false =>
      have h1 : ((if h.id == sid then { h with is_booked := b } else h).id == tid) = false := by
        rw [hid]
        exact ht
      rw [h1]
      simpa using ih
    | true =>
      have h1 : ((if h.id == sid then { h with is_booked := b } else h).id == tid) = true := by
        rw [hid]
        exact ht
      rw [h1]
      simp

/-- After a successful cancellation, looking up the cancelled
appointment's slot sees the booked flag cleared and all other fields
intact, and looking up any other slot sees the table unchanged. -/
theorem cancel_bound_slot_get (db : DB) (appointment_id : String) :
    ∀ a, CRUDAppointment.get db appointment_id = some a →
      a.status ≠ .cancelled →
      (∀ s, CRUDSlot.get db a.slot_id = some s →
        CRUDSlot.get (CRUDAppointment.cancel_appointment db appointment_id).1
            a.slot_id = some { s with is_booked := false }) ∧
      (∀ sid, sid ≠ a.slot_id →
        CRUDSlot.get (CRUDAppointment.cancel_appointment db appointment_id).1
            sid = CRUDSlot.get db sid) := by
  intro a ha hst
  have hne : (a.status != .cancelled) = true := by
    simpa using hst
  constructor
  · intro s hs
    have hsid : s.id = a.slot_id := by
      have := List.find?_some hs
      simpa using this
    simp only [CRUDAppointment.cancel_appointment, ha, hne, if_true,
      CRUDSlot.mark_as_available]
    have hget1 : CRUDSlot.get
        { db with appointments := db.appointments.map (fun x =>
            if x.id == appointment_id then { x with status := .cancelled } else x) }
        a.slot_id = some s := hs
    rw [hget1]
    by_cases hb : s.is_booked
    · simp only [hb, if_true]
      show (List.map _ db.slots).find? _ = _
      rw [find?_booked_update]
      show (CRUDSlot.get db a.slot_id).map _ = _
      rw [hs]
      simp [hsid]
    · have hb' : s.is_booked = false := by simpa using hb
      simp only [hb', Bool.false_eq_true, if_false]
      show CRUDSlot.get db a.slot_id = _
      rw [hs]
      cases s
      simp_all
  · intro sid hsid
    simp only [CRUDAppointment.cancel_appointment, ha, hne, if_true,
      CRUDSlot.mark_as_available]
    have hget1 : CRUDSlot.get
        { db with appointments := db.appointments.map (fun x =>
            if x.id == appointment_id then { x with status := .cancelled } else x) }
        a.slot_id = CRUDSlot.get db a.slot_id := rfl
    rw [hget1]
    cases hs : CRUDSlot.get db a.slot_id with
    | none => rfl
    | some s =>
      by_cases hb : s.is_booked
      · simp only [hb, if_true]
        show (List.map _ db.slots).find? _ = _
        rw [find?_booked_update]
        cases hfind : db.slots.find? (fun t => t.id == sid) with
        | none => simp [CRUDSlot.get, hfind]
        | some t =>
          have htid : t.id = sid := by
            have := List.find?_some hfind
            simpa using this
          have hcond : (t.id == a.slot_id) = false := by
            rw [beq_eq_false_iff_ne, htid]
            exact hsid
          simp [CRUDSlot.get, hfind, hcond]
          intro hh
          exact absurd (htid ▸ hh) hsid
      · have hb' : s.is_booked = false := by simpa using hb
        simp only [hb', Bool.false_eq_true, if_false]
        rfl


/-- C6: the transition to cancelled clears the bound slot's booked flag
(lookup of the appointment's slot afterwards sees is_booked false, all
other fields intact), and every other status transition — confirm,
complete, no_show, and the direct update_status path — leaves the slots
table entirely unchanged; cancellation also leaves every slot other than
the bound one unchanged. -/
theorem transitions_slot_frame (db : DB) (appointment_id : String) :
    (∀ st, (CRUDAppointment.update_status db appointment_id st).1.slots = db.slots) ∧
    ((CRUDAppointment.confirm_appointment db appointment_id).1.slots = db.slots) ∧
    ((CRUDAppointment.complete_appointment db appointment_id).1.slots = db.slots) ∧
    ((CRUDAppointment.mark_no_show db appointment_id).1.slots = db.slots) ∧
    (∀ a, CRUDAppointment.get db appointment_id = some a →
      a.status ≠ .cancelled →
      (∀ s, CRUDSlot.get db a.slot_id = some s →
        CRUDSlot.get (CRUDAppointment.cancel_appointment db appointment_id).1
            a.slot_id = some { s with is_booked := false }) ∧
      (∀ sid, sid ≠ a.slot_id →
        CRUDSlot.get (CRUDAppointment.cancel_appointment db appointment_id).1
            sid = CRUDSlot.get db sid)) := by
  refine ⟨?_, ?_, ?_, ?_, ?_⟩
  · intro st
    unfold CRUDAppointment.update_status
    cases h : CRUDAppointment.get db appointment_id <;> simp [h]
  · unfold CRUDAppointment.confirm_appointment
    cases h : CRUDAppointment.get db appointment_id with
    | none => simp [h]
    | some a => by_cases hs : a.status == .pending <;> simp [h, hs]
  · unfold CRUDAppointment.complete_appointment
    cases h : CRUDAppointment.get db appointment_id with
    | none => simp [h]
    | some a =>
      by_cases hs : (a.status == .pending || a.status == .confirmed) = true <;>
        simp [h, hs]
  · unfold CRUDAppointment.mark_no_show
    cases h : CRUDAppointment.get db appointment_id with
    | none => simp [h]
    | some a =>
      by_cases hs : (a.status == .pending || a.status == .confirmed) = true <;>
        simp [h, hs]
  · exact cancel_bound_slot_get db appointment_id

/-- Witness for C6: cancelling a concrete pending appointment clears the
booked flag of its slot. -/
theorem transitions_slot_frame_witness :
    CRUDSlot.get
      (CRUDAppointment.cancel_appointment
        (DB.mk [AvailableSlot.mk "s1" "t1" 0 540 600 true 0]
          [Appointment.mk "a1" "p1" "t1" "s1" MeetingMode.online .pending none])
        "a1").1 "s1" =
      some (AvailableSlot.mk "s1" "t1" 0 540 600 false 0) :=
  ((transitions_slot_frame
      (DB.mk [AvailableSlot.mk "s1" "t1" 0 540 600 true 0]
        [Appointment.mk "a1" "p1" "t1" "s1" MeetingMode.online .pending none])
      "a1").2.2.2.2
    (Appointment.mk "a1" "p1" "t1" "s1" MeetingMode.online .pending none)
    (by decide) (by decide)).1
    (AvailableSlot.mk "s1" "t1" 0 540 600 true 0) (by decide)

/-- Appointment-table frame of the slot flag flips: mark_as_available
never touches the appointments table. -/
theorem mark_as_available_appointments (db : DB) (slot_id : String) :
    (CRUDSlot.mark_as_available db slot_id).1.appointments = db.appointments := by
  unfold CRUDSlot.mark_as_available
  cases h : CRUDSlot.get db slot_id with
  | none => rfl
  | some s => by_cases hb : s.is_booked <;> simp [hb]

/-- C10: a status-update request targeting pending takes the direct
update_status branch of the route dispatch and sets the status to pending
unconditionally, whatever the current status (completed, cancelled and
no_show included); the request fails only when the appointment does not
exist. -/
theorem update_status_pending_direct (db : DB) (appointment_id : String) :
    (CRUDAppointment.get db appointment_id = none →
      update_appointment_status db appointment_id .pending =
        (db, .error (.notFound "Appointment not found"))) ∧
    (∀ a, CRUDAppointment.get db appointment_id = some a →
      update_appointment_status db appointment_id .pending =
        ({ db with appointments := db.appointments.map (fun x =>
            if x.id == appointment_id then { x with status := .pending } else x) },
         .ok { a with status := .pending })) := by
  constructor
  · intro h
    simp [update_appointment_status, h]
  · intro a ha
    simp [update_appointment_status, ha, CRUDAppointment.update_status]

/-- Witness for C10: a completed appointment is reset to pending by the
direct-update branch. -/
theorem update_status_pending_direct_witness :
    update_appointment_status
        (DB.mk [AvailableSlot.mk "s1" "t1" 0 540 600 true 0]
          [Appointment.mk "a1" "p1" "t1" "s1" MeetingMode.online .completed none])
        "a1" .pending =
      (DB.mk [AvailableSlot.mk "s1" "t1" 0 540 600 true 0]
        [Appointment.mk "a1" "p1" "t1" "s1" MeetingMode.online .pending none],
       .ok (Appointment.mk "a1" "p1" "t1" "s1" MeetingMode.online .pending none)) := by
  have h := (update_status_pending_direct
      (DB.mk [AvailableSlot.mk "s1" "t1" 0 540 600 true 0]
        [Appointment.mk "a1" "p1" "t1" "s1" MeetingMode.online .completed none])
      "a1").2
    (Appointment.mk "a1" "p1" "t1" "s1" MeetingMode.online .completed none)
    (by decide)
  rw [h]
  decide

/-- Acceptance condition the code actually implements for a
status-transition request, read off the dispatch of
update_appointment_status (app/api/routes/appointments.py lines 222-233)
and the guards of the CRUD methods it calls (app/crud/appointment.py):
confirm requires pending; complete and no_show require pending or
confirmed; cancel requires anything but cancelled; a pending target is
applied with no check at all. -/
def codeTransitionAllowed (current target : AppointmentStatus) : Bool :=
  match target with
  | .confirmed => current == .pending
  | .completed => current == .pending || current == .confirmed
  | .no_show => current == .pending || current == .confirmed
  | .cancelled => current != .cancelled
  | .pending => true

/-- C4 counterexample: cancelling a completed appointment is not rejected;
the route transitions it to cancelled (and unbooks its slot). -/
theorem cancel_completed_accepted :
    update_appointment_status
        (DB.mk [AvailableSlot.mk "s1" "t1" 0 540 600 true 0]
          [Appointment.mk "a1" "p1" "t1" "s1" MeetingMode.online .completed none])
        "a1" .cancelled =
      (DB.mk [AvailableSlot.mk "s1" "t1" 0 540 600 false 0]
        [Appointment.mk "a1" "p1" "t1" "s1" MeetingMode.online .cancelled none],
       .ok (Appointment.mk "a1" "p1" "t1" "s1" MeetingMode.online .cancelled none)) := by
  decide

/-- C4 amended: for an existing appointment, a status-transition request is
rejected — with the generic bad-request failure of the route, the database
unchanged — exactly when codeTransitionAllowed refuses it, and applied
otherwise; the table of the spec is enforced for targets confirmed,
completed and no_show, but a cancel request is accepted from every status
except cancelled itself, and a pending target is always applied. -/
theorem update_appointment_status_amended (db : DB) (appointment_id : String)
    (target : AppointmentStatus) (a : Appointment)
    (ha : CRUDAppointment.get db appointment_id = some a) :
    (codeTransitionAllowed a.status target = false →
      update_appointment_status db appointment_id target =
        (db, .error (.badRequest "Failed to update appointment status"))) ∧
    (codeTransitionAllowed a.status target = true →
      ∃ db2, update_appointment_status db appointment_id target =
          (db2, .ok { a with status := target }) ∧
        db2.appointments = db.appointments.map (fun x =>
          if x.id == appointment_id then { x with status := target } else x)) := by
  cases target with
  | pending =>
    constructor
    · intro h
      simp [codeTransitionAllowed] at h
    · intro _
      refine ⟨{ db with appointments := db.appointments.map (fun x =>
          if x.id == appointment_id then { x with status := .pending } else x) }, ?_, rfl⟩
      simp [update_appointment_status, ha, CRUDAppointment.update_status]
  | confirmed =>
    constructor
    · intro h
      simp only [codeTransitionAllowed] at h
      simp [update_appointment_status, ha, CRUDAppointment.confirm_appointment, h]
    · intro h
      simp only [codeTransitionAllowed] at h
      refine ⟨{ db with appointments := db.appointments.map (fun x =>
          if x.id == appointment_id then { x with status := .confirmed } else x) }, ?_, rfl⟩
      simp [update_appointment_status, ha, CRUDAppointment.confirm_appointment, h]
  | completed =>
    constructor
    · intro h
      simp only [codeTransitionAllowed] at h
      simp [update_appointment_status, ha, CRUDAppointment.complete_appointment, h]
    · intro h
      simp only [codeTransitionAllowed] at h
      refine ⟨{ db with appointments := db.appointments.map (fun x =>
          if x.id == appointment_id then { x with status := .completed } else x) }, ?_, rfl⟩
      simp [update_appointment_status, ha, CRUDAppointment.complete_appointment, h]
  | no_show =>
    constructor
    · intro h
      simp only [codeTransitionAllowed] at h
      simp [update_appointment_status, ha, CRUDAppointment.mark_no_show, h]
    · intro h
      simp only [codeTransitionAllowed] at h
      refine ⟨{ db with appointments := db.appointments.map (fun x =>
          if x.id == appointment_id then { x with status := .no_show } else x) }, ?_, rfl⟩
      simp [update_appointment_status, ha, CRUDAppointment.mark_no_show, h]
  | cancelled =>
    constructor
    · intro h
      simp only [codeTransitionAllowed] at h
      simp [update_appointment_status, ha, CRUDAppointment.cancel_appointment, h]
    · intro h
      simp only [codeTransitionAllowed] at h
      refine ⟨(CRUDAppointment.cancel_appointment db appointment_id).1, ?_, ?_⟩
      · simp [update_appointment_status, ha, CRUDAppointment.cancel_appointment, h]
      · simp only [CRUDAppointment.cancel_appointment, ha, h, if_true]
        rw [mark_as_available_appointments]

/-- Witness for the amended C4: confirming a completed appointment is
rejected with the generic bad-request failure and the database is
unchanged. -/
theorem update_appointment_status_amended_witness :
    update_appointment_status
        (DB.mk [AvailableSlot.mk "s1" "t1" 0 540 600 true 0]
          [Appointment.mk "a1" "p1" "t1" "s1" MeetingMode.online .completed none])
        "a1" .confirmed =
      (DB.mk [AvailableSlot.mk "s1" "t1" 0 540 600 true 0]
        [Appointment.mk "a1" "p1" "t1" "s1" MeetingMode.online .completed none],
       .error (.badRequest "Failed to update appointment status")) :=
  (update_appointment_status_amended
      (DB.mk [AvailableSlot.mk "s1" "t1" 0 540 600 true 0]
        [Appointment.mk "a1" "p1" "t1" "s1" MeetingMode.online .completed none])
      "a1" .confirmed
      (Appointment.mk "a1" "p1" "t1" "s1" MeetingMode.online .completed none)
      (by decide)).1 (by decide)

/-- C3 (divergence): cancelling an appointment does clear its slot's
booked flag, but a subsequent booking of that same slot never succeeds:
the cancelled appointment still references the slot (appointments are
never deleted and get_by_slot matches regardless of status), so the
defensive second check of book_appointment raises ConflictError although
is_booked is false.  The hypotheses say the appointment exists
non-cancelled and its slot exists. -/
theorem book_after_cancel_conflicts (db : DB) (appointment_id : String)
    (a : Appointment) (s : AvailableSlot)
    (ha : CRUDAppointment.get db appointment_id = some a)
    (hst : a.status ≠ .cancelled)
    (hs : CRUDSlot.get db a.slot_id = some s)
    (parent2 : String) (mode : MeetingMode) (notes : Option String)
    (newApptId : String) :
    CRUDSlot.get (CRUDAppointment.cancel_appointment db appointment_id).1
        a.slot_id = some { s with is_booked := false } ∧
    book_appointment (CRUDAppointment.cancel_appointment db appointment_id).1
        parent2 a.slot_id mode notes newApptId =
      ((CRUDAppointment.cancel_appointment db appointment_id).1,
       .error (.conflict "Slot already has an appointment")) := by
  have hslot := (cancel_bound_slot_get db appointment_id a ha hst).1 s hs
  refine ⟨hslot, ?_⟩
  have hne : (a.status != .cancelled) = true := by simpa using hst
  have happ : (CRUDAppointment.cancel_appointment db appointment_id).1.appointments =
      db.appointments.map (fun x =>
        if x.id == appointment_id then { x with status := .cancelled } else x) := by
    simp only [CRUDAppointment.cancel_appointment, ha, hne, if_true]
    rw [mark_as_available_appointments]
  have hmem : a ∈ db.appointments := List.mem_of_find?_eq_some ha
  have hsome : (CRUDAppointment.get_by_slot
      (CRUDAppointment.cancel_appointment db appointment_id).1 a.slot_id).isSome := by
    unfold CRUDAppointment.get_by_slot
    rw [happ, List.find?_isSome]
    refine ⟨(if a.id == appointment_id then { a with status := .cancelled } else a),
      List.mem_map_of_mem _ hmem, ?_⟩
    by_cases hh : a.id = appointment_id <;> simp [hh]
  obtain ⟨a2, hbs⟩ := Option.isSome_iff_exists.mp hsome
  simp [book_appointment, hslot, hbs]

/-- Witness for C3: the concrete end-to-end scenario — a confirmed
appointment on a booked slot is cancelled, the slot flag clears, and the
re-booking attempt by a second requester gets ConflictError. -/
theorem book_after_cancel_conflicts_witness :
    CRUDSlot.get (CRUDAppointment.cancel_appointment
        (DB.mk [AvailableSlot.mk "s1" "t1" 0 540 600 true 0]
          [Appointment.mk "a1" "p1" "t1" "s1" MeetingMode.online .confirmed none])
        "a1").1 "s1" =
      some (AvailableSlot.mk "s1" "t1" 0 540 600 false 0) ∧
    book_appointment (CRUDAppointment.cancel_appointment
        (DB.mk [AvailableSlot.mk "s1" "t1" 0 540 600 true 0]
          [Appointment.mk "a1" "p1" "t1" "s1" MeetingMode.online .confirmed none])
        "a1").1 "p2" "s1" MeetingMode.online none "a2" =
      ((CRUDAppointment.cancel_appointment
        (DB.mk [AvailableSlot.mk "s1" "t1" 0 540 600 true 0]
          [Appointment.mk "a1" "p1" "t1" "s1" MeetingMode.online .confirmed none])
        "a1").1,
       .error (.conflict "Slot already has an appointment")) :=
  book_after_cancel_conflicts
    (DB.mk [AvailableSlot.mk "s1" "t1" 0 540 600 true 0]
      [Appointment.mk "a1" "p1" "t1" "s1" MeetingMode.online .confirmed none])
    "a1"
    (Appointment.mk "a1" "p1" "t1" "s1" MeetingMode.online .confirmed none)
    (AvailableSlot.mk "s1" "t1" 0 540 600 true 0)
    (by decide) (by decide) (by decide) "p2" MeetingMode.online none "a2"

/-- C1 (divergence): the booking sequence takes no lock and does no
compare-and-swap, so under the interleaving in which both requests pass
the availability checks before either inserts, the first inserter wins and
the second request dies on the UNIQUE-constraint IntegrityError of its
insert commit — an unhandled 500, not the ConflictError the claim
promises for every losing request.  Concretely: requests A and B race for
the free slot s1; A runs its two checks, then B runs to completion and
succeeds, then A resumes and its insert raises IntegrityError.  The final
state does have the slot booked with exactly one appointment, but A's
outcome is integrityError, which is no conflict error. -/
theorem concurrent_booking_race :
    runSchedule [true, true, false, false, false, false, true]
        (DB.mk [AvailableSlot.mk "s1" "t1" 0 540 600 false 0] [])
        (BookProc.start "p1" "s1" MeetingMode.online none "a1")
        (BookProc.start "p2" "s1" MeetingMode.online none "a2") =
      (DB.mk [AvailableSlot.mk "s1" "t1" 0 540 600 true 0]
        [Appointment.mk "a2" "p2" "t1" "s1" MeetingMode.online .pending none],
       BookProc.mk "p1" "s1" MeetingMode.online none "a1" "t1" 2
         (some (.error .integrityError)),
       BookProc.mk "p2" "s1" MeetingMode.online none "a2" "t1" 3
         (some (.ok (Appointment.mk "a2" "p2" "t1" "s1" MeetingMode.online
           .pending none)))) ∧
    (∀ detail, ApiError.integrityError ≠ ApiError.conflict detail) := by
  constructor
  · decide
  · intro detail h
    cases h

/-- Generalised invariant of the bulk loop on the success path: with any
accumulator, a conflict-free candidate list is inserted wholesale. -/
theorem bulkLoop_ok (teacher_id : String) (week_start : Int) :
    ∀ (cands : List (TimeSlotSpec × String)) (db : DB)
      (created : List AvailableSlot),
      runsWithoutConflict teacher_id week_start db cands →
      bulkLoop teacher_id week_start db created cands =
        ({ db with slots := db.slots ++ bulkSlots teacher_id week_start cands },
         .ok (created ++ bulkSlots teacher_id week_start cands)) := by
  intro cands
  induction cands with
  | nil =>
    intro db created _
    simp [bulkLoop, bulkSlots]
  | cons ci rest ih =>
    intro db created h
    obtain ⟨h1, h2, h3⟩ := h
    have hv : ¬ (ci.1.end_time ≤ ci.1.start_time) := by omega
    obtain ⟨c, i⟩ := ci
    simp only [bulkLoop, h1, Bool.false_eq_true, if_false, hv, CRUDSlot.create]
    simp only [bulkSlot] at h3
    rw [ih _ _ h3]
    simp [bulkSlots, bulkSlot, List.append_assoc]

/-- Generalised invariant of the bulk loop on the abort path: a
conflict-free prefix is inserted, the first conflicting candidate raises
ConflictException, and nothing after it is touched. -/
theorem bulkLoop_abort (teacher_id : String) (week_start : Int)
    (c : TimeSlotSpec) (i : String) (post : List (TimeSlotSpec × String)) :
    ∀ (pre : List (TimeSlotSpec × String)) (db : DB)
      (created : List AvailableSlot),
      runsWithoutConflict teacher_id week_start db pre →
      CRUDSlot.check_time_conflict
        { db with slots := db.slots ++ bulkSlots teacher_id week_start pre }
        teacher_id c.day_of_week c.start_time c.end_time week_start none = true →
      bulkLoop teacher_id week_start db created (pre ++ (c, i) :: post) =
        ({ db with slots := db.slots ++ bulkSlots teacher_id week_start pre },
         .error (.conflict (bulkConflictDetail c))) := by
  intro pre
  induction pre with
  | nil =>
    intro db created _ hc
    have hc0 : CRUDSlot.check_time_conflict db teacher_id c.day_of_week
        c.start_time c.end_time week_start none = true := by
      have : ({ db with slots := db.slots ++ bulkSlots teacher_id week_start [] }) = db := by
        simp [bulkSlots]
      rwa [this] at hc
    simp [bulkLoop, hc0, bulkSlots]
  | cons cj rest ih =>
    intro db created h hc
    obtain ⟨h1, h2, h3⟩ := h
    have hv : ¬ (cj.1.end_time ≤ cj.1.start_time) := by omega
    obtain ⟨cj0, j⟩ := cj
    simp only [List.cons_append, bulkLoop, h1, Bool.false_eq_true, if_false, hv,
      CRUDSlot.create]
    simp only [List.append_eq]
    simp only [bulkSlot] at h3
    rw [ih _ _ h3 (by
      simpa [bulkSlots, bulkSlot, List.append_assoc] using hc)]
    simp [bulkSlots, bulkSlot, List.append_assoc]

/-- C7 counterexample: a bulk request with one conflicting candidate in the
middle does not skip it — it fails the whole request with ConflictError,
keeps the candidate inserted before the conflict committed, and never
inserts the non-conflicting candidate after it. -/
theorem bulk_conflict_aborts_batch :
    create_bulk_slots (DB.mk [AvailableSlot.mk "s1" "t1" 0 540 600 false 0] [])
        "t1" 0
        [(TimeSlotSpec.mk 0 600 630, "n1"), (TimeSlotSpec.mk 0 570 630, "n2"),
         (TimeSlotSpec.mk 0 660 690, "n3")] =
      (DB.mk [AvailableSlot.mk "s1" "t1" 0 540 600 false 0,
              AvailableSlot.mk "n1" "t1" 0 600 630 false 0] [],
       .error (.conflict (bulkConflictDetail (TimeSlotSpec.mk 0 570 630)))) := by
  rfl

/-- C7 amended: each candidate is checked by check_time_conflict before
insertion (against existing rows and the candidates already inserted in
this request), but a conflicting candidate is not silently skipped: the
request fails with ConflictError at the first conflicting candidate,
candidates before it stay committed, candidates after it are not
inserted; only a batch with no conflicting candidate is inserted in
full. -/
theorem create_bulk_slots_amended (db : DB) (teacher_id : String)
    (week_start : Int) :
    (∀ cands, runsWithoutConflict teacher_id week_start db cands →
      create_bulk_slots db teacher_id week_start cands =
        ({ db with slots := db.slots ++ bulkSlots teacher_id week_start cands },
         .ok (bulkSlots teacher_id week_start cands))) ∧
    (∀ pre c i post, runsWithoutConflict teacher_id week_start db pre →
      CRUDSlot.check_time_conflict
        { db with slots := db.slots ++ bulkSlots teacher_id week_start pre }
        teacher_id c.day_of_week c.start_time c.end_time week_start none = true →
      create_bulk_slots db teacher_id week_start (pre ++ (c, i) :: post) =
        ({ db with slots := db.slots ++ bulkSlots teacher_id week_start pre },
         .error (.conflict (bulkConflictDetail c)))) := by
  constructor
  · intro cands h
    unfold create_bulk_slots
    rw [bulkLoop_ok teacher_id week_start cands db [] h]
    simp
  · intro pre c i post h hc
    unfold create_bulk_slots
    exact bulkLoop_abort teacher_id week_start c i post pre db [] h hc

/-- Witness for the amended C7: two conflict-free candidates are both
inserted and returned. -/
theorem create_bulk_slots_amended_witness :
    create_bulk_slots (DB.mk [AvailableSlot.mk "s1" "t1" 0 540 600 false 0] [])
        "t1" 0 [(TimeSlotSpec.mk 0 600 630, "n1"), (TimeSlotSpec.mk 1 540 600, "n2")] =
      (DB.mk [AvailableSlot.mk "s1" "t1" 0 540 600 false 0,
              AvailableSlot.mk "n1" "t1" 0 600 630 false 0,
              AvailableSlot.mk "n2" "t1" 1 540 600 false 0] [],
       .ok [AvailableSlot.mk "n1" "t1" 0 600 630 false 0,
            AvailableSlot.mk "n2" "t1" 1 540 600 false 0]) := by
  have h := (create_bulk_slots_amended
      (DB.mk [AvailableSlot.mk "s1" "t1" 0 540 600 false 0] []) "t1" 0).1
    [(TimeSlotSpec.mk 0 600 630, "n1"), (TimeSlotSpec.mk 1 540 600, "n2")]
    (by exact ⟨by decide, by decide, by decide, by decide, trivial⟩)
  rw [h]
  rfl

/-- C8 (divergence): the Appointment model has no reminder_sent column, so
every run of the reminder scan dies on the AttributeError raised while
building its query filter and returns the status-error dict: no
appointment is ever selected, no reminder dispatched, no flag set, and the
state is unchanged.  The claimed dispatch-then-set-flag mechanism does not
exist in the code. -/
theorem send_appointment_reminders_always_errors (db : DB) :
    send_appointment_reminders db = (db, JobResult.mk "error" 0 0, []) ∧
    "reminder_sent" ∉ appointmentModelColumns :=
  ⟨rfl, by decide⟩

/-- C9 (divergence): whatever comparison semantics cmp the engine gives the
ill-typed time-of-day versus datetime test of the weekly reset job, the
deletion filter reads only is_booked and start_time.  Booked slots are
indeed never deleted; but on a database holding two unbooked 09:00 slots,
one in a long-elapsed week and one in a far-future week, the job deletes
both or neither — no engine semantics makes it delete exactly the
elapsed-week slot as the claim requires. -/
theorem reset_weekly_slots_week_blind (cmp : Nat → Int → Bool) (now : Int) :
    (∀ db : DB, ∀ s ∈ db.slots, s.is_booked = true →
      s ∈ (reset_weekly_slots cmp db now).1.slots) ∧
    (AvailableSlot.mk "old" "t1" 0 540 600 false (-1000000) ∈
        (reset_weekly_slots cmp
          (DB.mk [AvailableSlot.mk "old" "t1" 0 540 600 false (-1000000),
                  AvailableSlot.mk "new" "t1" 0 540 600 false 1000000] [])
          now).1.slots ↔
      AvailableSlot.mk "new" "t1" 0 540 600 false 1000000 ∈
        (reset_weekly_slots cmp
          (DB.mk [AvailableSlot.mk "old" "t1" 0 540 600 false (-1000000),
                  AvailableSlot.mk "new" "t1" 0 540 600 false 1000000] [])
          now).1.slots) := by
  constructor
  · intro db s hmem hb
    simp [reset_weekly_slots, List.mem_filter, hmem, hb]
  · cases hb : cmp 540 (now - 7 * 24 * 60) <;>
      simp [reset_weekly_slots, List.mem_filter, hb]

/-- Witness for C9: with a semantics that compares everything as deletable
and a concrete booked slot, the slot survives the reset. -/
theorem reset_weekly_slots_week_blind_witness :
    AvailableSlot.mk "b1" "t1" 0 540 600 true 0 ∈
      (reset_weekly_slots (fun _ _ => true)
        (DB.mk [AvailableSlot.mk "b1" "t1" 0 540 600 true 0] []) 0).1.slots :=
  (reset_weekly_slots_week_blind (fun _ _ => true) 0).1
    (DB.mk [AvailableSlot.mk "b1" "t1" 0 540 600 true 0] [])
    (AvailableSlot.mk "b1" "t1" 0 540 600 true 0)
    (by decide) rfl
